import Mathlib

/-!
Verification of the sandboxed execution subsystem of the repository
(`app/backends/filesystem_sandbox.py`, `app/backends/state_sandbox.py`,
`app/backends/docker_sandbox.py`) and the task-registry discipline of the
chat endpoints (`app/api/chat.py`), as a shallow embedding in Lean.

Strings model Python `str`; character-level slicing (`s[:n]`) is modelled on
`String.data`.  Machine integers do not overflow in any path modelled here,
so exit codes are `Int` and sizes are `Nat`.
-/

set_option autoImplicit false

/-! ## Result value objects (`deepagents.backends.protocol`)

`ExecuteResponse {output, exit_code, truncated}`, `WriteResult {path, error}`
(mutually exclusive optional fields), `FileInfo {path, is_dir, size,
modified_at}`, `GrepMatch {path, line, text}`. -/

structure ExecuteResponse where
  output : String
  exit_code : Int
  truncated : Bool
deriving DecidableEq, Repr

structure WriteResult where
  path : Option String := none
  error : Option String := none
deriving DecidableEq, Repr

structure FileInfo where
  path : String
  is_dir : Bool
  size : Nat
  modified_at : String
deriving DecidableEq, Repr

structure GrepMatch where
  path : String
  line : Nat
  text : String
deriving DecidableEq, Repr

/-! ## Python string primitives used by the backends -/

/-- Python slicing `s[:n]` on character level. -/
def pyTake (s : String) (n : Nat) : String :=
  String.mk (s.data.take n)

/-- Python `s.strip()` (whitespace strip; ASCII whitespace suffices here). -/
def pyStrip (s : String) : String :=
  String.mk (((s.data.dropWhile Char.isWhitespace).reverse.dropWhile Char.isWhitespace).reverse)

/-- Python `s.isdigit()`: nonempty and all characters are digits. -/
def pyIsDigit (s : String) : Bool :=
  s ≠ "" && s.data.all Char.isDigit

/-- Python `int(s)` restricted to digit strings (the only use sites guard
with `isdigit`). -/
def pyInt (s : String) : Nat :=
  s.data.foldl (fun acc c => 10 * acc + (c.toNat - 48)) 0

/-- Splitting a character list on a separator character (the semantics of
Python `str.split` with a one-character separator: `"" ↦ [""]`,
separators at the ends produce empty pieces). -/
def splitOnChar (sep : Char) : List Char → List (List Char)
  | [] => [[]]
  | c :: cs =>
      match splitOnChar sep cs with
      | [] => [[c]]
      | p :: ps => if c = sep then [] :: p :: ps else (c :: p) :: ps

/-- Python `s.split(sep)` for a one-character separator. -/
def pySplitChar (sep : Char) (s : String) : List String :=
  (splitOnChar sep s.data).map String.mk

/-- Python `line.split(sep, 2)`: split on `sep` at most twice, the third
part keeps any further separators. -/
def pySplit2 (sep : Char) (s : String) : List String :=
  let ps := pySplitChar sep s
  if ps.length ≤ 3 then ps
  else ps.take 2 ++ [String.intercalate (String.singleton sep) (ps.drop 2)]

/-- Python `s.splitlines()` for newline-separated text: split on `\n`,
dropping the final empty piece produced by a trailing newline. -/
def pySplitlines (s : String) : List String :=
  if s = "" then []
  else
    let ps := pySplitChar '\n' s
    if ps.getLast? = some "" then ps.dropLast else ps

/-! ## Shared execute post-processing

All three backends share, textually, the same three steps after the
command returns: merge stdout/stderr, truncate to `max_output_size`
characters, and replace an empty result by the `"(no output)"` sentinel
(`output or "(no output)"`). -/

/-- `output = ""; if stdout: output += stdout; if stderr: (newline-join)`
from `FilesystemSandboxBackend.execute` / `StateSandboxBackend.execute`. -/
def combineOutput (stdout stderr : String) : String :=
  if stderr = "" then stdout
  else if stdout = "" then stderr
  else stdout ++ "\n" ++ stderr

/-- `if len(output) > max_output_size: output = output[:max_output_size];
truncated = True`. -/
def truncateOutput (max_output_size : Nat) (output : String) : String × Bool :=
  if max_output_size < output.length then (pyTake output max_output_size, true)
  else (output, false)

/-- `output or "(no output)"`. -/
def orNoOutput (output : String) : String :=
  if output = "" then "(no output)" else output

/-! ## Backend configuration surfaces -/

/-- `FilesystemSandboxBackend.__init__` configuration.  `root_dir`,
`virtual_mode` and `max_file_size_mb` are stored but play no role in
`execute`, the only operation of this backend under scrutiny. -/
structure FilesystemSandboxBackend where
  root_dir : Option String := none
  virtual_mode : Bool := false
  max_file_size_mb : Nat := 10
  max_output_size : Nat := 100000
  command_timeout : Nat := 30
deriving DecidableEq, Repr

/-- `StateSandboxBackend.__init__(runtime, max_output_size=100000)`: the
runtime handle is opaque and unused by `execute`; `max_output_size` is the
only execution-relevant configuration field.  There is no
`command_timeout` parameter. -/
structure StateSandboxBackend where
  max_output_size : Nat := 100000
deriving DecidableEq, Repr

/-- `DockerSandboxBackend.__init__` configuration. -/
structure DockerSandboxBackend where
  image : String := "python:3.12-slim"
  memory_limit : String := "512m"
  cpu_quota : Nat := 50000
  network_mode : String := "none"
  working_dir : String := "/workspace"
  auto_remove : Bool := true
  max_output_size : Nat := 100000
  command_timeout : Nat := 30
deriving DecidableEq, Repr

/-! ## Command behaviour models

A host command observed by `subprocess.run` has separate stdout/stderr
streams, a return code and a wall-clock duration; `subprocess.run(...,
timeout=T)` raises `TimeoutExpired` exactly when the duration exceeds `T`.
Any other exception raised by the runner is modelled by `raises`. -/

structure HostCommand where
  stdout : String
  stderr : String
  returncode : Int
  duration : Nat
deriving DecidableEq, Repr

inductive HostRun where
  | completes (c : HostCommand)
  | raises (msg : String)
deriving DecidableEq, Repr

/-- A container exec observed by `Container.exec_run`: docker merges the
streams into one byte sequence, which `_exec_command` decodes permissively.
`exec_run` is invoked with no deadline argument, so the duration of the
command never influences the call: it only measures how long the caller
blocks. -/
structure ContainerExec where
  output : String
  exit_code : Int
  duration : Nat
deriving DecidableEq, Repr

inductive ContainerRun where
  | completes (c : ContainerExec)
  | raises (msg : String)
deriving DecidableEq, Repr

/-! ## `execute` for the three backends -/

/-- `FilesystemSandboxBackend.execute`: run with `timeout=self.command_timeout`,
merge streams, truncate, sentinel; `TimeoutExpired` is converted to the
timeout-flavoured response, any other exception to an error response. -/
def FilesystemSandboxBackend.execute (b : FilesystemSandboxBackend)
    (run : HostRun) : ExecuteResponse :=
  match run with
  | .raises msg =>
      { output := "Error executing command: " ++ msg, exit_code := -1, truncated := false }
  | .completes c =>
      if b.command_timeout < c.duration then
        { output := "Error: Command execution timed out (" ++ Nat.repr b.command_timeout
            ++ " seconds limit)"
          exit_code := -1, truncated := false }
      else
        let output := combineOutput c.stdout c.stderr
        let tr := truncateOutput b.max_output_size output
        { output := orNoOutput tr.1, exit_code := c.returncode, truncated := tr.2 }

/-- `StateSandboxBackend.execute`: identical post-processing, but the
`subprocess.run` call hard-codes `timeout=30` and the timeout message
hard-codes "30 seconds limit"; no configuration field is consulted for
the limit. -/
def StateSandboxBackend.execute (b : StateSandboxBackend)
    (run : HostRun) : ExecuteResponse :=
  match run with
  | .raises msg =>
      { output := "Error executing command: " ++ msg, exit_code := -1, truncated := false }
  | .completes c =>
      if 30 < c.duration then
        { output := "Error: Command execution timed out (30 seconds limit)"
          exit_code := -1, truncated := false }
      else
        let output := combineOutput c.stdout c.stderr
        let tr := truncateOutput b.max_output_size output
        { output := orNoOutput tr.1, exit_code := c.returncode, truncated := tr.2 }

/-- `DockerSandboxBackend.execute`: `_exec_command` (hence `exec_run`) is
called with no timeout, so a completing run is post-processed whatever its
duration; only a raising run yields the `exit_code = -1` error response.
`self.command_timeout` is never consulted. -/
def DockerSandboxBackend.execute (b : DockerSandboxBackend)
    (run : ContainerRun) : ExecuteResponse :=
  match run with
  | .raises msg =>
      { output := "Error executing command: " ++ msg, exit_code := -1, truncated := false }
  | .completes c =>
      let tr := truncateOutput b.max_output_size c.output
      { output := orNoOutput tr.1, exit_code := c.exit_code, truncated := tr.2 }

/-! ## Docker container filesystem state

`_read_file_from_container` fetches a path as a tar archive and extracts
the first member (`None` for a missing path — `docker.errors.NotFound` —
and for any other failure); `_write_file_to_container` packs the content
into a single-file tar and uploads it at the parent directory, replacing
any file already at that path.  We model the container filesystem as an
association list from absolute path to content; `mkdir -p` always succeeds
inside a running container and has no further observable effect on these
paths, so directories are not tracked. -/

structure ContainerFS where
  entries : List (String × String)
deriving DecidableEq, Repr

/-- `_read_file_from_container`. -/
def ContainerFS.readFile (fs : ContainerFS) (file_path : String) : Option String :=
  fs.entries.lookup file_path

/-- The state change of a successful `_write_file_to_container` (tar upload
replaces the file at that path). -/
def ContainerFS.writeFile (fs : ContainerFS) (file_path content : String) : ContainerFS :=
  ⟨(file_path, content) :: fs.entries⟩

/-- The full mutable state of a `DockerSandboxBackend` instance relevant to
file operations: the container filesystem plus the `self._files` in-memory
cache (written on successful `write`, never read back on these paths). -/
structure DockerState where
  fs : ContainerFS
  files : List (String × String)
deriving DecidableEq, Repr

/-- The error message of a clobbering `write`. -/
def clobberMessage (file_path : String) : String :=
  "Cannot write to " ++ file_path
    ++ " because it already exists. Read and then make an edit, or write to a new path."

/-- `DockerSandboxBackend.write`.  `uploadOk` is the environment's verdict
on the `put_archive` upload (`_write_file_to_container` returns `False`
exactly when the docker API raised). -/
def DockerSandboxBackend.write (st : DockerState) (uploadOk : Bool)
    (file_path content : String) : WriteResult × DockerState :=
  match st.fs.readFile file_path with
  | some _ => ({ error := some (clobberMessage file_path) }, st)
  | none =>
      if uploadOk then
        ({ path := some file_path },
         { fs := st.fs.writeFile file_path content
           files := (file_path, content) :: st.files })
      else
        ({ error := some ("Failed to write file " ++ file_path) }, st)

/-! ## Read formatting

`DockerSandboxBackend.read` splits the fetched content into lines and
delegates the display formatting to `format_read_response` from the
external `deepagents.backends.utils` module, which is not part of this
repository. -/

/-- Decimal digit characters of a natural number. -/
def digitsOf (n : Nat) : List Char :=
  if _h : n < 10 then [Nat.digitChar n]
  else digitsOf (n / 10) ++ [Nat.digitChar (n % 10)]
decreasing_by
  exact Nat.div_lt_self (by omega) (by omega)

/-- One displayed line: the 1-based line number, a tab, then the line. -/
def numberLine (n : Nat) (line : String) : String :=
  String.mk (digitsOf n) ++ "\t" ++ line

/-- The lines of the window starting at 1-based number `n`. -/
def numberLines (n : Nat) : List String → List String
  | [] => []
  | l :: ls => numberLine n l :: numberLines (n + 1) ls

/-- Modelled from the spec: `format_read_response` lives in the external
`deepagents.backends.utils` module, absent from this repository; the spec
says `read` "returns content with 1-based line numbers injected for
display" and that `offset`/`limit` "operate on logical lines, not bytes".
So: select the `limit` logical lines starting at 0-based `offset` and
prefix each with its 1-based line number. -/
def format_read_response (lines : List String) (offset limit : Nat) : String :=
  String.intercalate "\n" (numberLines (offset + 1) ((lines.drop offset).take limit))

/-- Removing the injected line-number prefix: drop up to and including the
first tab. -/
def stripNumber (s : String) : String :=
  String.mk ((s.data.dropWhile (· ≠ '\t')).drop 1)

/-- `DockerSandboxBackend.read` (defaults `offset=0`, `limit=2000`). -/
def DockerSandboxBackend.read (st : DockerState) (file_path : String)
    (offset : Nat := 0) (limit : Nat := 2000) : String :=
  match st.fs.readFile file_path with
  | none => "Error: File \x27" ++ file_path ++ "\x27 not found"
  | some content => format_read_response (pySplitlines content) offset limit

/-! ## `grep_raw` and `glob_info`

Both are implemented by running shell utilities through `_exec_command`
and parsing their text output.  The container's responses are modelled by
an oracle `exec : String → String × Int` mapping a shell command line to
the merged output and exit code of its run. -/

/-- The grep command line built by `grep_raw`. -/
def grepCommand (b : DockerSandboxBackend) (pattern : String)
    (path glob : Option String) : String :=
  let search_path := path.getD b.working_dir
  let base := "grep -rn \x27" ++ pattern ++ "\x27 " ++ search_path
  match glob with
  | some g => base ++ " --include=\x27" ++ g ++ "\x27"
  | none => base

/-- The per-line parse of grep output: `line.split(":", 2)`, kept only
when it has (exactly) three parts; a non-numeric line field becomes 0. -/
def parseGrepLine (line : String) : Option GrepMatch :=
  match pySplit2 ':' line with
  | [p0, p1, p2] => some { path := p0, line := if pyIsDigit p1 then pyInt p1 else 0, text := p2 }
  | _ => none

/-- `DockerSandboxBackend.grep_raw`.  The declared return type of the
source is `list[GrepMatch] | str`, mirrored by a sum; note that both
branches of the body produce the list side. -/
def DockerSandboxBackend.grep_raw (b : DockerSandboxBackend)
    (exec : String → String × Int) (pattern : String)
    (path : Option String := none) (glob : Option String := none) :
    List GrepMatch ⊕ String :=
  let r := exec (grepCommand b pattern path glob)
  if r.2 ≠ 0 ∧ r.1 = "" then Sum.inl []
  else
    Sum.inl (((pySplitChar '\n' (pyStrip r.1)).filter (· ≠ "")).filterMap parseGrepLine)

/-- The find command line built by `glob_info`. -/
def findCommand (pattern : String) (path : String) : String :=
  "find " ++ path ++ " -name \x27" ++ pattern ++ "\x27"

/-- The stat command line used per result path. -/
def statCommand (file_path : String) : String :=
  "stat -c %s " ++ file_path

/-- `DockerSandboxBackend.glob_info`: run `find <path> -name '<pattern>'`
(no `-type` filter, so matching directories are listed too), then for each
reported path obtain a size via `stat -c %s` and emit a `FileInfo` whose
`is_dir` field is the literal `False` of the source. -/
def DockerSandboxBackend.glob_info (exec : String → String × Int)
    (pattern : String) (path : String := "/") : List FileInfo :=
  let r := exec (findCommand pattern path)
  if r.2 ≠ 0 then []
  else
    ((pySplitChar '\n' (pyStrip r.1)).filter (· ≠ "")).map fun file_path =>
      let size_output := (exec (statCommand file_path)).1
      let size := if pyIsDigit (pyStrip size_output) then pyInt (pyStrip size_output) else 0
      { path := file_path, is_dir := false, size := size, modified_at := "" }

/-! ## `cleanup`

`cleanup` guards on `self._container is not None`; inside, a `try` block
stops the container (and removes it when `auto_remove` is off), an
`except Exception: pass` swallows any docker error — in particular the
container being already gone — and a `finally` clears the reference.
The environment's verdict on the stop/remove calls is a parameter; the
returned flag records whether the call raised (it never does). -/

inductive StopVerdict where
  | ok
  | alreadyGone
  | daemonError (msg : String)
deriving DecidableEq, Repr

/-- The container-reference part of a Docker backend's state. -/
structure DockerRuntime where
  auto_remove : Bool
  container : Option Unit
deriving DecidableEq, Repr

/-- `DockerSandboxBackend.cleanup`: returns the new state and whether the
call raised. -/
def DockerSandboxBackend.cleanup (rt : DockerRuntime) (env : StopVerdict) :
    DockerRuntime × Bool :=
  match rt.container with
  | none => (rt, false)
  | some _ =>
      match env with
      | _ => ({ rt with container := none }, false)

/-! ## Chat endpoints and the task registry (`app/api/chat.py`)

Modelled from the spec: the `TaskManager` implementation
(`app/utils/task_manager.py`) is not among the repository sources, only
its call sites in `app/api/chat.py` are.  Per the spec it is a
process-wide map from `thread_id` to a task handle plus stop flag, whose
`register_task`/`unregister_task`/`is_stopped` operations are plain
guarded map updates and never raise.  With one fixed `thread_id` the
registry state reduces to a `Bool`: whether an entry for that key exists.

The two handlers are embedded as control-flow interpreters.  Each await
point is given an outcome by the environment: it returns normally, raises
an ordinary `Exception` (which `except Exception` catches — this includes
the `HTTPException`s raised by the `raise_*_error` helpers, which are also
absent from the sources and spec-modelled as ordinary exceptions), or
raises `asyncio.CancelledError` — which since Python 3.8 derives from
`BaseException`, not `Exception`, and therefore bypasses any
`except Exception` clause.  The interpreter returns how the handler exits
together with the final registry state for the thread. -/

inductive StepOutcome where
  | ok
  | exc
  | cancelled
deriving DecidableEq, Repr

/-- Environment of one run of the non-stream `chat` handler: the outcome
of each await reached after the conversation is resolved, and the value
the `is_stopped` poll would report. -/
structure ChatEnv where
  saveUser : StepOutcome
  getGraph : StepOutcome
  invokeAwait : StepOutcome
  stopCheck : StepOutcome
  stoppedVal : Bool
  saveAssistant : StepOutcome
deriving DecidableEq, Repr

inductive ChatExit where
  | success
  | httpError
  | cancelledEscape
deriving DecidableEq, Repr

/-- The non-stream `chat` handler, from the `try:` that wraps everything
after `get_user_config` to its exit.  Second component: is the thread
still registered when the handler exits? -/
def chatEndpoint (e : ChatEnv) : ChatExit × Bool :=
  match e.saveUser with
  | .exc => (.httpError, false)
  | .cancelled => (.cancelledEscape, false)
  | .ok =>
  match e.getGraph with
  | .exc => (.httpError, false)
  | .cancelled => (.cancelledEscape, false)
  | .ok =>
  -- `create_task` + `await task_manager.register_task(...)`: registered
  match e.invokeAwait with
  | .cancelled => (.httpError, false)
      -- `except asyncio.CancelledError`: unregister, then
      -- `raise_client_closed_error` raises inside the outer try; the
      -- outer `except Exception` catches it, unregisters again (no-op)
      -- and raises the internal error
  | .exc => (.httpError, false)
      -- outer `except Exception`: unregister, raise internal error
  | .ok =>
  match e.stopCheck with
  | .cancelled => (.cancelledEscape, true)
      -- `await task_manager.is_stopped(...)` cancelled: CancelledError
      -- is no `Exception`, both handlers are skipped, the entry stays
  | .exc => (.httpError, false)
  | .ok =>
  if e.stoppedVal then (.httpError, false)
      -- unregister, `raise_client_closed_error` → outer except → internal
  else
  -- `await task_manager.unregister_task(...)`: no longer registered
  match e.saveAssistant with
  | .cancelled => (.cancelledEscape, false)
  | .exc => (.httpError, false)
  | .ok => (.success, false)

/-- Environment of one run of the stream handler's `event_generator`. -/
structure StreamEnv where
  getGraph : StepOutcome
  eventLoop : StepOutcome
  stoppedVal : Bool
  saveMsgs : StepOutcome
deriving DecidableEq, Repr

inductive StreamExit where
  | done
  | stopped
  | cancelledYield
  | errorYield
deriving DecidableEq, Repr

/-- `chat_stream.event_generator`: registration happens first, the whole
body sits in a `try` with `except asyncio.CancelledError`,
`except Exception` and a `finally` that unregisters, so every exit path
runs the unregister. -/
def streamEventGenerator (e : StreamEnv) : StreamExit × Bool :=
  -- `asyncio.current_task()` registered
  match e.getGraph with
  | .exc => (.errorYield, false)
  | .cancelled => (.cancelledYield, false)
  | .ok =>
  match e.eventLoop with
  | .exc => (.errorYield, false)
  | .cancelled => (.cancelledYield, false)
  | .ok =>
  if e.stoppedVal then (.stopped, false)
      -- explicit unregister + return; the `finally` unregisters again
  else
  match e.saveMsgs with
  | .exc => (.errorYield, false)
  | .cancelled => (.cancelledYield, false)
  | .ok => (.done, false)

/-! ## Supporting lemmas -/

theorem orNoOutput_ne_empty (s : String) : orNoOutput s ≠ "" := by
  unfold orNoOutput
  split
  · intro h
    exact absurd (congrArg String.length h) (by decide)
  · assumption

theorem orNoOutput_of_ne_empty {s : String} (h : s ≠ "") : orNoOutput s = s := by
  simp [orNoOutput, h]

theorem length_pyTake (s : String) (n : Nat) : (pyTake s n).length = min n s.length := by
  rw [pyTake]
  show (s.data.take n).length = min n s.length
  rw [List.length_take]
  rfl

theorem ne_empty_of_length_pos {s : String} (h : 0 < s.length) : s ≠ "" := by
  intro he
  subst he
  exact absurd h (by decide)

/-- The shared post-processing at the truncation boundary, for caps of at
least one character. -/
theorem truncate_boundary (m : Nat) (hm : 1 ≤ m) (o : String) :
    (o.length = m + 1 →
      (truncateOutput m o).2 = true ∧ (orNoOutput (truncateOutput m o).1).length = m) ∧
    (o.length = m →
      (truncateOutput m o).2 = false ∧ orNoOutput (truncateOutput m o).1 = o) := by
  constructor
  · intro h
    have hlt : m < o.length := by omega
    have htake : (pyTake o m).length = m := by
      rw [length_pyTake]
      omega
    have hne : pyTake o m ≠ "" := ne_empty_of_length_pos (by omega)
    simp [truncateOutput, hlt, orNoOutput_of_ne_empty hne, htake]
  · intro h
    have hlt : ¬ m < o.length := by omega
    have hne : o ≠ "" := ne_empty_of_length_pos (by omega)
    simp [truncateOutput, hlt, orNoOutput_of_ne_empty hne]

theorem ContainerFS.readFile_writeFile_self (fs : ContainerFS) (p c : String) :
    (fs.writeFile p c).readFile p = some c := by
  simp [ContainerFS.readFile, ContainerFS.writeFile, List.lookup]

theorem digitChar_lt_ten_ne_tab : ∀ d : Fin 10, Nat.digitChar d.val ≠ '\t' := by decide

theorem digitsOf_ne_tab (n : Nat) : ∀ c ∈ digitsOf n, c ≠ '\t' := by
  induction n using Nat.strong_induction_on with
  | _ n ih =>
    rw [digitsOf]
    split
    · intro c hc
      rw [List.mem_singleton] at hc
      subst hc
      exact digitChar_lt_ten_ne_tab ⟨n, by omega⟩
    · intro c hc
      rw [List.mem_append] at hc
      rcases hc with hc | hc
      · exact ih (n / 10) (Nat.div_lt_self (by omega) (by omega)) c hc
      · rw [List.mem_singleton] at hc
        subst hc
        exact digitChar_lt_ten_ne_tab ⟨n % 10, Nat.mod_lt _ (by omega)⟩

theorem dropWhile_append_all {α : Type} (p : α → Bool) (xs ys : List α)
    (h : ∀ x ∈ xs, p x = true) :
    List.dropWhile p (xs ++ ys) = List.dropWhile p ys := by
  induction xs with
  | nil => rfl
  | cons a as ihx =>
      rw [List.cons_append, List.dropWhile_cons_of_pos (h a (by simp))]
      exact ihx fun x hx => h x (by simp [hx])

theorem stripNumber_numberLine (n : Nat) (l : String) :
    stripNumber (numberLine n l) = l := by
  unfold stripNumber numberLine
  have hdata : (String.mk (digitsOf n) ++ "\t" ++ l).data
      = digitsOf n ++ '\t' :: l.data := by
    simp
  rw [hdata, dropWhile_append_all _ (digitsOf n) ('\t' :: l.data)
        (fun x hx => by simp [digitsOf_ne_tab n x hx]),
      List.dropWhile_cons_of_neg (by simp)]
  cases l
  rfl

theorem numberLines_map_strip (ls : List String) : ∀ k : Nat,
    (numberLines k ls).map stripNumber = ls := by
  induction ls with
  | nil => intro k; rfl
  | cons a as ihl =>
      intro k
      simp [numberLines, stripNumber_numberLine, ihl (k + 1)]

theorem clobberMessage_ne_empty (p : String) : clobberMessage p ≠ "" := by
  intro h
  have hl := congrArg String.length h
  simp [clobberMessage, String.length_append] at hl
  exact absurd hl.1.1 (by decide)

/-! ## The claims -/

/-- C6: `DockerSandboxBackend.cleanup` is idempotent and total: whatever
the environment does to the stop/remove calls, it never raises, it leaves
no container reference behind, and a repeated call is a raise-free no-op. -/
theorem docker_cleanup_idempotent :
    ∀ (rt : DockerRuntime) (e1 e2 : StopVerdict),
      (DockerSandboxBackend.cleanup rt e1).2 = false ∧
      ((DockerSandboxBackend.cleanup rt e1).1).container = none ∧
      DockerSandboxBackend.cleanup (DockerSandboxBackend.cleanup rt e1).1 e2
        = ((DockerSandboxBackend.cleanup rt e1).1, false) := by
  intro rt e1 e2
  rcases rt with ⟨ar, c⟩
  cases c <;> simp [DockerSandboxBackend.cleanup]

/-- C1: contrary to the claim, `DockerSandboxBackend.execute` applies no
timeout at all: `exec_run` receives no deadline and `command_timeout` is
never consulted, so a command running for 3600 seconds under the default
30-second configuration still blocks to completion and returns its real
exit code instead of the timeout-flavoured `exit_code = -1` response the
Filesystem backend produces in the same situation; indeed the result is
invariant under any change of `command_timeout`. -/
theorem docker_execute_ignores_command_timeout :
    DockerSandboxBackend.execute {} (.completes ⟨"", 0, 3600⟩)
      = { output := "(no output)", exit_code := 0, truncated := false } ∧
    FilesystemSandboxBackend.execute {} (.completes ⟨"", "", 0, 3600⟩)
      = { output := "Error: Command execution timed out (30 seconds limit)"
          exit_code := -1, truncated := false } ∧
    ∀ (b : DockerSandboxBackend) (t : Nat) (run : ContainerRun),
      DockerSandboxBackend.execute b run
        = DockerSandboxBackend.execute { b with command_timeout := t } run := by
  refine ⟨rfl, rfl, ?_⟩
  intro b t run
  cases run <;> rfl

/-- C9 counterexample: the State backend's `execute` hard-codes a
30-second limit; a 31-second command is reported as timed out with the
constant message "(30 seconds limit)" under either of two different
configurations — the configuration surface (`max_output_size` only, see
`StateSandboxBackend`) offers no `command_timeout` to raise the limit. -/
theorem state_execute_fixed_timeout_cex :
    StateSandboxBackend.execute { max_output_size := 5 } (.completes ⟨"x", "", 0, 31⟩)
      = { output := "Error: Command execution timed out (30 seconds limit)"
          exit_code := -1, truncated := false } ∧
    StateSandboxBackend.execute { max_output_size := 123456 } (.completes ⟨"x", "", 0, 31⟩)
      = { output := "Error: Command execution timed out (30 seconds limit)"
          exit_code := -1, truncated := false } := by
  exact ⟨rfl, rfl⟩

/-- C9 amended: the State backend's configuration surface carries only
`max_output_size`; `execute` enforces a fixed, unconfigurable 30-second
timeout, returning the timeout-flavoured response with `exit_code = -1`
when the limit is exceeded and the command's own return code otherwise. -/
theorem state_execute_fixed_timeout :
    ∀ (b : StateSandboxBackend) (c : HostCommand),
      (30 < c.duration →
        StateSandboxBackend.execute b (.completes c)
          = { output := "Error: Command execution timed out (30 seconds limit)"
              exit_code := -1, truncated := false }) ∧
      (c.duration ≤ 30 →
        (StateSandboxBackend.execute b (.completes c)).exit_code = c.returncode) := by
  intro b c
  constructor
  · intro h
    simp [StateSandboxBackend.execute, h]
  · intro h
    simp [StateSandboxBackend.execute, Nat.not_lt.mpr h]

/-- C9 witness for `state_execute_fixed_timeout` at duration 31 and 7. -/
theorem state_execute_fixed_timeout_witness :
    (StateSandboxBackend.execute {} (.completes ⟨"", "", 4, 31⟩)
      = { output := "Error: Command execution timed out (30 seconds limit)"
          exit_code := -1, truncated := false }) ∧
    (StateSandboxBackend.execute {} (.completes ⟨"", "", 4, 7⟩)).exit_code = 4 :=
  ⟨(state_execute_fixed_timeout {} ⟨"", "", 4, 31⟩).1 (by decide),
   (state_execute_fixed_timeout {} ⟨"", "", 4, 7⟩).2 (by decide)⟩

/-- C2: on the Docker backend a `write` to a path holding a previously
written file fails with the non-empty clobber error and performs no
mutation: the whole backend state is unchanged and the stored contents
remain those of the first write. -/
theorem docker_write_no_clobber (st : DockerState) (u1 u2 : Bool) (P C1 C2 : String)
    (h : (DockerSandboxBackend.write st u1 P C1).1.error = none) :
    (DockerSandboxBackend.write (DockerSandboxBackend.write st u1 P C1).2 u2 P C2).1.error
        = some (clobberMessage P) ∧
    clobberMessage P ≠ "" ∧
    (DockerSandboxBackend.write (DockerSandboxBackend.write st u1 P C1).2 u2 P C2).2
        = (DockerSandboxBackend.write st u1 P C1).2 ∧
    ((DockerSandboxBackend.write (DockerSandboxBackend.write st u1 P C1).2 u2 P C2).2).fs.readFile P
        = some C1 := by
  rcases hr : st.fs.readFile P with _ | c0
  · rcases hu : u1 with _ | _
    · exfalso
      rw [DockerSandboxBackend.write, hr] at h
      simp [hu] at h
    · subst hu
      have hread : ((DockerSandboxBackend.write st true P C1).2).fs.readFile P = some C1 := by
        rw [DockerSandboxBackend.write, hr]
        exact ContainerFS.readFile_writeFile_self st.fs P C1
      have hw2 : DockerSandboxBackend.write (DockerSandboxBackend.write st true P C1).2 u2 P C2
          = ({ error := some (clobberMessage P) }, (DockerSandboxBackend.write st true P C1).2) := by
        rw [DockerSandboxBackend.write, hread]
      rw [hw2]
      exact ⟨rfl, clobberMessage_ne_empty P, rfl, hread⟩
  · exfalso
    rw [DockerSandboxBackend.write, hr] at h
    simp at h

/-- C2 witness: the concrete double write to `/workspace/a.txt`. -/
theorem docker_write_no_clobber_witness :
    (DockerSandboxBackend.write
        (DockerSandboxBackend.write ⟨⟨[]⟩, []⟩ true "/workspace/a.txt" "one").2
        true "/workspace/a.txt" "two").1.error
      = some (clobberMessage "/workspace/a.txt") ∧
    ((DockerSandboxBackend.write
        (DockerSandboxBackend.write ⟨⟨[]⟩, []⟩ true "/workspace/a.txt" "one").2
        true "/workspace/a.txt" "two").2).fs.readFile "/workspace/a.txt"
      = some "one" := by
  have h := docker_write_no_clobber ⟨⟨[]⟩, []⟩ true true "/workspace/a.txt" "one" "two" rfl
  exact ⟨h.1, h.2.2.2⟩

/-- C5: on the Docker backend, writing fresh path `P` with content `C`
succeeds (path returned, no error) and a subsequent `read` returns exactly
the line-numbered rendering of `C`, from which stripping the injected
number prefix recovers the lines of `C` unchanged. -/
theorem docker_write_read_roundtrip (st : DockerState) (P C : String)
    (hfresh : st.fs.readFile P = none) :
    (DockerSandboxBackend.write st true P C).1.error = none ∧
    (DockerSandboxBackend.write st true P C).1.path = some P ∧
    DockerSandboxBackend.read (DockerSandboxBackend.write st true P C).2 P
      = format_read_response (pySplitlines C) 0 2000 ∧
    (numberLines 1 ((pySplitlines C).take 2000)).map stripNumber
      = (pySplitlines C).take 2000 := by
  have hread : ((DockerSandboxBackend.write st true P C).2).fs.readFile P = some C := by
    rw [DockerSandboxBackend.write, hfresh]
    exact ContainerFS.readFile_writeFile_self st.fs P C
  refine ⟨?_, ?_, ?_, numberLines_map_strip _ 1⟩
  · rw [DockerSandboxBackend.write, hfresh]
    rfl
  · rw [DockerSandboxBackend.write, hfresh]
    rfl
  · rw [DockerSandboxBackend.read, hread]

/-- C5 witness: the round trip at the fresh path `/workspace/notes.txt`
with two-line content. -/
theorem docker_write_read_roundtrip_witness :
    (DockerSandboxBackend.write ⟨⟨[]⟩, []⟩ true "/workspace/notes.txt" "hello\nworld").1.error
      = none ∧
    DockerSandboxBackend.read
        (DockerSandboxBackend.write ⟨⟨[]⟩, []⟩ true "/workspace/notes.txt" "hello\nworld").2
        "/workspace/notes.txt"
      = format_read_response (pySplitlines "hello\nworld") 0 2000 := by
  have h := docker_write_read_roundtrip ⟨⟨[]⟩, []⟩ "/workspace/notes.txt" "hello\nworld" rfl
  exact ⟨h.1, h.2.2.1⟩

/-- C3 counterexample: with `max_output_size = 0` the Filesystem backend,
on a command whose combined output has exactly `max_output_size + 1`
characters, truncates to the empty string, which the sentinel then
replaces, so the returned output has length 11, not `max_output_size`. -/
theorem truncation_boundary_cex :
    (combineOutput "a" "").length = 0 + 1 ∧
    FilesystemSandboxBackend.execute { max_output_size := 0 } (.completes ⟨"a", "", 0, 0⟩)
      = { output := "(no output)", exit_code := 0, truncated := true } ∧
    ("(no output)".length = 0 → False) := by
  exact ⟨rfl, rfl, by decide⟩

/-- C3 amended: for every backend configured with `max_output_size ≥ 1`
(and a command completing within the applicable time limit), combined
output of exactly `max_output_size + 1` characters yields `truncated =
true` with output of length exactly `max_output_size`, and combined
output of exactly `max_output_size` characters is returned unshortened
with `truncated = false`. -/
theorem truncation_boundary :
    (∀ (b : FilesystemSandboxBackend) (c : HostCommand),
      1 ≤ b.max_output_size → c.duration ≤ b.command_timeout →
      ((combineOutput c.stdout c.stderr).length = b.max_output_size + 1 →
        (FilesystemSandboxBackend.execute b (.completes c)).truncated = true ∧
        (FilesystemSandboxBackend.execute b (.completes c)).output.length = b.max_output_size) ∧
      ((combineOutput c.stdout c.stderr).length = b.max_output_size →
        (FilesystemSandboxBackend.execute b (.completes c)).truncated = false ∧
        (FilesystemSandboxBackend.execute b (.completes c)).output
          = combineOutput c.stdout c.stderr)) ∧
    (∀ (b : StateSandboxBackend) (c : HostCommand),
      1 ≤ b.max_output_size → c.duration ≤ 30 →
      ((combineOutput c.stdout c.stderr).length = b.max_output_size + 1 →
        (StateSandboxBackend.execute b (.completes c)).truncated = true ∧
        (StateSandboxBackend.execute b (.completes c)).output.length = b.max_output_size) ∧
      ((combineOutput c.stdout c.stderr).length = b.max_output_size →
        (StateSandboxBackend.execute b (.completes c)).truncated = false ∧
        (StateSandboxBackend.execute b (.completes c)).output
          = combineOutput c.stdout c.stderr)) ∧
    (∀ (b : DockerSandboxBackend) (c : ContainerExec),
      1 ≤ b.max_output_size →
      (c.output.length = b.max_output_size + 1 →
        (DockerSandboxBackend.execute b (.completes c)).truncated = true ∧
        (DockerSandboxBackend.execute b (.completes c)).output.length = b.max_output_size) ∧
      (c.output.length = b.max_output_size →
        (DockerSandboxBackend.execute b (.completes c)).truncated = false ∧
        (DockerSandboxBackend.execute b (.completes c)).output = c.output)) := by
  refine ⟨?_, ?_, ?_⟩
  · intro b c hm hdur
    have hfs : FilesystemSandboxBackend.execute b (.completes c)
        = { output := orNoOutput
              (truncateOutput b.max_output_size (combineOutput c.stdout c.stderr)).1
            exit_code := c.returncode
            truncated :=
              (truncateOutput b.max_output_size (combineOutput c.stdout c.stderr)).2 } := by
      rw [FilesystemSandboxBackend.execute, if_neg (Nat.not_lt.mpr hdur)]
    have hb := truncate_boundary b.max_output_size hm (combineOutput c.stdout c.stderr)
    rw [hfs]
    exact ⟨fun h1 => ⟨(hb.1 h1).1, (hb.1 h1).2⟩, fun h2 => ⟨(hb.2 h2).1, (hb.2 h2).2⟩⟩
  · intro b c hm hdur
    have hst : StateSandboxBackend.execute b (.completes c)
        = { output := orNoOutput
              (truncateOutput b.max_output_size (combineOutput c.stdout c.stderr)).1
            exit_code := c.returncode
            truncated :=
              (truncateOutput b.max_output_size (combineOutput c.stdout c.stderr)).2 } := by
      rw [StateSandboxBackend.execute, if_neg (Nat.not_lt.mpr hdur)]
    have hb := truncate_boundary b.max_output_size hm (combineOutput c.stdout c.stderr)
    rw [hst]
    exact ⟨fun h1 => ⟨(hb.1 h1).1, (hb.1 h1).2⟩, fun h2 => ⟨(hb.2 h2).1, (hb.2 h2).2⟩⟩
  · intro b c hm
    have hb := truncate_boundary b.max_output_size hm c.output
    exact ⟨fun h1 => ⟨(hb.1 h1).1, (hb.1 h1).2⟩, fun h2 => ⟨(hb.2 h2).1, (hb.2 h2).2⟩⟩

/-- C3 witness: the boundary at `max_output_size = 1` on all three
backends, with two-character and one-character outputs. -/
theorem truncation_boundary_witness :
    ((FilesystemSandboxBackend.execute { max_output_size := 1 }
        (.completes ⟨"ab", "", 0, 0⟩)).truncated = true ∧
     (FilesystemSandboxBackend.execute { max_output_size := 1 }
        (.completes ⟨"ab", "", 0, 0⟩)).output.length = 1) ∧
    ((FilesystemSandboxBackend.execute { max_output_size := 1 }
        (.completes ⟨"a", "", 0, 0⟩)).truncated = false) ∧
    ((StateSandboxBackend.execute { max_output_size := 1 }
        (.completes ⟨"ab", "", 0, 0⟩)).truncated = true) ∧
    ((DockerSandboxBackend.execute { max_output_size := 1 }
        (.completes ⟨"ab", 0, 0⟩)).truncated = true) := by
  refine ⟨?_, ?_, ?_, ?_⟩
  · exact (truncation_boundary.1 { max_output_size := 1 } ⟨"ab", "", 0, 0⟩
      (by decide) (by decide)).1 (by decide)
  · exact ((truncation_boundary.1 { max_output_size := 1 } ⟨"a", "", 0, 0⟩
      (by decide) (by decide)).2 (by decide)).1
  · exact ((truncation_boundary.2.1 { max_output_size := 1 } ⟨"ab", "", 0, 0⟩
      (by decide) (by decide)).1 (by decide)).1
  · exact ((truncation_boundary.2.2 { max_output_size := 1 } ⟨"ab", 0, 0⟩
      (by decide)).1 (by decide)).1

/-- C10: on each backend a command that completes (within the applicable
time limit) with empty stdout and stderr yields the literal sentinel
`"(no output)"` while `exit_code` keeps the real return code; moreover the
output of any completing command is never the empty string. -/
theorem execute_empty_output_sentinel :
    (∀ (b : FilesystemSandboxBackend) (c : HostCommand),
      c.stdout = "" → c.stderr = "" → c.duration ≤ b.command_timeout →
      FilesystemSandboxBackend.execute b (.completes c)
        = { output := "(no output)", exit_code := c.returncode, truncated := false }) ∧
    (∀ (b : StateSandboxBackend) (c : HostCommand),
      c.stdout = "" → c.stderr = "" → c.duration ≤ 30 →
      StateSandboxBackend.execute b (.completes c)
        = { output := "(no output)", exit_code := c.returncode, truncated := false }) ∧
    (∀ (b : DockerSandboxBackend) (c : ContainerExec),
      c.output = "" →
      DockerSandboxBackend.execute b (.completes c)
        = { output := "(no output)", exit_code := c.exit_code, truncated := false }) ∧
    (∀ (b : FilesystemSandboxBackend) (c : HostCommand),
      c.duration ≤ b.command_timeout →
      (FilesystemSandboxBackend.execute b (.completes c)).output ≠ "") ∧
    (∀ (b : StateSandboxBackend) (c : HostCommand),
      c.duration ≤ 30 →
      (StateSandboxBackend.execute b (.completes c)).output ≠ "") ∧
    (∀ (b : DockerSandboxBackend) (c : ContainerExec),
      (DockerSandboxBackend.execute b (.completes c)).output ≠ "") := by
  refine ⟨?_, ?_, ?_, ?_, ?_, ?_⟩
  · intro b c h1 h2 hdur
    rw [FilesystemSandboxBackend.execute, if_neg (Nat.not_lt.mpr hdur)]
    simp [combineOutput, truncateOutput, orNoOutput, h1, h2]
  · intro b c h1 h2 hdur
    rw [StateSandboxBackend.execute, if_neg (Nat.not_lt.mpr hdur)]
    simp [combineOutput, truncateOutput, orNoOutput, h1, h2]
  · intro b c h1
    rw [DockerSandboxBackend.execute]
    simp [truncateOutput, orNoOutput, h1]
  · intro b c hdur
    rw [FilesystemSandboxBackend.execute, if_neg (Nat.not_lt.mpr hdur)]
    exact orNoOutput_ne_empty _
  · intro b c hdur
    rw [StateSandboxBackend.execute, if_neg (Nat.not_lt.mpr hdur)]
    exact orNoOutput_ne_empty _
  · intro b c
    exact orNoOutput_ne_empty _

/-- C10 witness: concrete silent commands (return codes 3, 4, 5) and a
concrete noisy command on each backend. -/
theorem execute_empty_output_sentinel_witness :
    FilesystemSandboxBackend.execute {} (.completes ⟨"", "", 3, 0⟩)
      = { output := "(no output)", exit_code := 3, truncated := false } ∧
    StateSandboxBackend.execute {} (.completes ⟨"", "", 4, 0⟩)
      = { output := "(no output)", exit_code := 4, truncated := false } ∧
    DockerSandboxBackend.execute {} (.completes ⟨"", 5, 0⟩)
      = { output := "(no output)", exit_code := 5, truncated := false } ∧
    (FilesystemSandboxBackend.execute {} (.completes ⟨"x", "", 0, 0⟩)).output ≠ "" ∧
    (StateSandboxBackend.execute {} (.completes ⟨"x", "", 0, 0⟩)).output ≠ "" ∧
    (DockerSandboxBackend.execute {} (.completes ⟨"x", 0, 0⟩)).output ≠ "" := by
  refine ⟨?_, ?_, ?_, ?_, ?_, ?_⟩
  · exact execute_empty_output_sentinel.1 {} ⟨"", "", 3, 0⟩ rfl rfl (by decide)
  · exact execute_empty_output_sentinel.2.1 {} ⟨"", "", 4, 0⟩ rfl rfl (by decide)
  · exact execute_empty_output_sentinel.2.2.1 {} ⟨"", 5, 0⟩ rfl
  · exact execute_empty_output_sentinel.2.2.2.1 {} ⟨"x", "", 0, 0⟩ (by decide)
  · exact execute_empty_output_sentinel.2.2.2.2.1 {} ⟨"x", "", 0, 0⟩ (by decide)
  · exact execute_empty_output_sentinel.2.2.2.2.2 {} ⟨"x", 0, 0⟩

/-- A container in which grep finds nothing: empty output, exit code 1. -/
def grepNoMatchExec : String → String × Int :=
  fun _ => ("", 1)

/-- A container in which the search root `/root` is unreadable: grep
prints its diagnostic and exits 2. -/
def grepPermissionDeniedExec : String → String × Int :=
  fun _ => ("grep: /root: Permission denied\n", 2)

/-- C7: `grep_raw` does return the empty list when nothing matches, but
it can never return a descriptive string: on a failed search it parses
the grep diagnostic itself into a bogus `GrepMatch`, and every invocation
whatsoever lands in the list side of its declared
`list[GrepMatch] | str` return type. -/
theorem docker_grep_raw_never_string :
    DockerSandboxBackend.grep_raw {} grepNoMatchExec "needle" = Sum.inl [] ∧
    DockerSandboxBackend.grep_raw {} grepPermissionDeniedExec "x" (some "/root")
      = Sum.inl [{ path := "grep", line := 0, text := " Permission denied" }] ∧
    ∀ (b : DockerSandboxBackend) (exec : String → String × Int)
      (pattern : String) (path glob : Option String),
      ∃ l, DockerSandboxBackend.grep_raw b exec pattern path glob = Sum.inl l := by
  refine ⟨rfl, ?_, ?_⟩
  · decide
  · intro b exec pattern path glob
    simp only [DockerSandboxBackend.grep_raw]
    split
    · exact ⟨[], rfl⟩
    · exact ⟨_, rfl⟩

/-- A container whose `/data` directory holds a subdirectory `pkg`
(ground truth in `globDirWorld`): `find /data -name 'pkg'` lists the
directory — `find` has no `-type` filter here — and `stat -c %s` on it
reports 4096 bytes. -/
def globDirWorld : List (String × Bool) :=
  [("/data", true), ("/data/pkg", true)]

def globDirExec : String → String × Int :=
  fun cmd =>
    if cmd = findCommand "pkg" "/data" then ("/data/pkg\n", 0)
    else if cmd = statCommand "/data/pkg" then ("4096\n", 0)
    else ("", 1)

/-- C8 counterexample: `/data/pkg` is a directory (per `globDirWorld`),
the pattern `pkg` matches it, and `glob_info` returns it with
`is_dir = false`: the field does not reflect the matched object. -/
theorem glob_info_reports_directory_as_file :
    globDirWorld.lookup "/data/pkg" = some true ∧
    DockerSandboxBackend.glob_info globDirExec "pkg" "/data"
      = [{ path := "/data/pkg", is_dir := false, size := 4096, modified_at := "" }] := by
  exact ⟨by decide, by decide⟩

/-- C8 amended: `glob_info` emits one entry per path reported by `find`
(which lists directories whose names match the pattern as well), always
with the hard-coded `is_dir = false`, whether or not the matched object
is a directory. -/
theorem glob_info_is_dir_always_false :
    ∀ (exec : String → String × Int) (pattern path : String) (fi : FileInfo),
      fi ∈ DockerSandboxBackend.glob_info exec pattern path → fi.is_dir = false := by
  intro exec pattern path fi h
  simp only [DockerSandboxBackend.glob_info] at h
  split at h
  · simp at h
  · rw [List.mem_map] at h
    rcases h with ⟨a, -, rfl⟩
    rfl

/-- C8 witness for `glob_info_is_dir_always_false` at the concrete
directory-matching container. -/
theorem glob_info_is_dir_always_false_witness :
    ({ path := "/data/pkg", is_dir := false, size := 4096, modified_at := "" } : FileInfo)
      ∈ DockerSandboxBackend.glob_info globDirExec "pkg" "/data" ∧
    ({ path := "/data/pkg", is_dir := false, size := 4096, modified_at := "" } : FileInfo).is_dir
      = false := by
  have hm : ({ path := "/data/pkg", is_dir := false, size := 4096, modified_at := "" } : FileInfo)
      ∈ DockerSandboxBackend.glob_info globDirExec "pkg" "/data" := by decide
  exact ⟨hm, glob_info_is_dir_always_false globDirExec "pkg" "/data" _ hm⟩

/-- C4: the stream generator unregisters its thread on every exit path
(its `finally` runs whatever happens), and the non-stream handler does so
on every path except one: when the handler coroutine is itself cancelled
at the `is_stopped` await, after the graph task completed, the
`CancelledError` bypasses both the inner `except asyncio.CancelledError`
(which guards only the `await invoke_task`) and the outer
`except Exception`, and the handler exits with the entry still
registered.  The first conjunct evaluates that failing run; the third
characterises all runs of the non-stream handler. -/
theorem chat_cancelled_at_stop_check_leaks_entry :
    chatEndpoint { saveUser := .ok, getGraph := .ok, invokeAwait := .ok,
                   stopCheck := .cancelled, stoppedVal := false, saveAssistant := .ok }
      = (ChatExit.cancelledEscape, true) ∧
    (∀ e : StreamEnv, (streamEventGenerator e).2 = false) ∧
    (∀ e : ChatEnv, (chatEndpoint e).2 = false ∨
      (e.stopCheck = StepOutcome.cancelled ∧
        chatEndpoint e = (ChatExit.cancelledEscape, true))) := by
  refine ⟨rfl, ?_, ?_⟩
  · intro e
    rcases e with ⟨g, l, sv, sm⟩
    cases g <;> cases l <;> cases sv <;> cases sm <;> rfl
  · intro e
    rcases e with ⟨s1, s2, s3, s4, sv, s5⟩
    cases s1 <;> cases s2 <;> cases s3 <;> cases s4 <;> cases sv <;> cases s5 <;> decide
